import Mathlib

/-!
Shallow embedding of the k-nearest-neighbors classifier implemented in
`ml_mnist/knn/_knn.py`, together with theorems checking the natural-language
specification of that module against the code.

Distances are taken in an arbitrary linear ordered field `α` (instantiated at
`ℚ` for executable witnesses and at `ℝ` for the reference scenario whose
Euclidean distances are irrational).  Labels are integers.  External
collaborators (the kernel registry, the Minkowski primitive, the spatial
index, the object codec) are modelled from their documented contracts and
passed in explicitly.
-/

namespace MlMnist

/-- A feature vector: one row of the training matrix. -/
abbrev Vec (α : Type) := List α

/-- Opaque handle for the external `scipy.spatial.cKDTree` collaborator: a
built index records the data it was built over and the leaf size passed to
the builder. -/
structure KDTree (α : Type) where
  data : List (Vec α)
  leafsize : ℕ

/-- The `kernel` configuration field: either a kernel name (string) or a
callable similarity function; `None` is the surrounding `Option`. -/
inductive KernelKind (α : Type) where
  | name (s : String)
  | func (f : Vec α → Vec α → α)

/-- Python truthiness of the `kernel` field (`if self.kernel:`): `None` and
the empty string are falsy; a nonempty name and any callable are truthy. -/
def kernelTruthy {α : Type} : Option (KernelKind α) → Bool
  | none => false
  | some (.name s) => s != ""
  | some (.func _) => true

/-- External collaborators consumed by the classifier (spec section 6): the
kernel registry `get_kernel(name, **params)` and the `scipy` Minkowski
distance primitive `minkowski(x, y, p)`. -/
structure Env (α : Type) where
  get_kernel : String → List (String × α) → (Vec α → Vec α → α)
  minkowski : Vec α → Vec α → α → α

/-- The failures the embedded code can raise.  `valueError` carries the
offending field and its value (the code formats both into the message);
`unboundLocal` stands for Python's `UnboundLocalError`, which names neither. -/
inductive KNNError where
  | valueError (field value : String)
  | insufficientSamples (n k : ℕ)
  | attributeError
  | indexError
  | unboundLocal
deriving DecidableEq

/-- The mutable estimator state: the constructor parameters of
`KNNClassifier`, the fitted data `_X`/`_y`, the `kd_tree_` attribute, the
`_called_fit` flag of `BaseEstimator`, and the `_metric` attribute set by
`_check_metric` (absent before the first resolution). -/
structure KNNState (α : Type) where
  k : ℕ
  p : α
  weights : String
  algorithm : String
  leaf_size : ℕ
  metric : Option (Vec α → Vec α → α)
  kernel : Option (KernelKind α)
  kernel_params : List (String × α)
  kd_tree_ : Option (KDTree α)
  X : List (Vec α)
  y : List ℤ
  called_fit : Bool
  _metric : Option (Vec α → Vec α → α)

variable {α : Type} [LinearOrderedField α]

/-- Python truthiness of `self.metric or self.kernel` in `_check_metric`. -/
def metricOrKernel (s : KNNState α) : Bool :=
  s.metric.isSome || kernelTruthy s.kernel

/-- The warning printed by `_check_metric` when it downgrades the algorithm
(quotes elided). -/
def downgradeWarning : String :=
  "Warning: algorithm kd_tree cannot be used with custom metric function. Switching to algorithm brute"

/-- `KNNClassifier._check_metric`: if a custom metric or kernel is configured
while `algorithm == 'kd_tree'`, print a warning and force `algorithm` to
`'brute'` (in-place mutation); then resolve `self._metric` with kernel
priority: kernel-induced distance `K(x,x) - 2 K(x,y) + K(y,y)` (kernel looked
up by name when given as a string), else the custom metric, else Minkowski
with order `p`.  Returns the mutated state and the printed warnings. -/
def _check_metric (env : Env α) (s : KNNState α) : KNNState α × List String :=
  let pr :=
    if metricOrKernel s && s.algorithm == "kd_tree" then
      ({ s with algorithm := "brute" }, [downgradeWarning])
    else (s, [])
  let s1 := pr.1
  if kernelTruthy s1.kernel then
    let kernel_func : Vec α → Vec α → α :=
      match s1.kernel with
      | some (.name n) => env.get_kernel n s1.kernel_params
      | some (.func f) => f
      | none => env.get_kernel "" s1.kernel_params
    ({ s1 with _metric := some (fun x y => kernel_func x x - 2 * kernel_func x y + kernel_func y y) }, pr.2)
  else if s1.metric.isSome then
    ({ s1 with _metric := s1.metric }, pr.2)
  else
    ({ s1 with _metric := some (fun x y => env.minkowski x y s1.p) }, pr.2)

/-- Comparison of training-set indices by their distance value in `l` (the
key order used by `argpartition`). -/
def argRel (l : List α) (i j : ℕ) : Prop :=
  l.getD i 0 ≤ l.getD j 0

instance (l : List α) : DecidableRel (argRel l) := fun i j =>
  inferInstanceAs (Decidable (l.getD i 0 ≤ l.getD j 0))

instance (l : List α) : IsTotal ℕ (argRel l) :=
  ⟨fun _ _ => le_total _ _⟩

instance (l : List α) : IsTrans ℕ (argRel l) :=
  ⟨fun _ _ _ => le_trans⟩

/-- `numpy.argpartition` (external collaborator): an index permutation whose
first `kth + 1` entries hold (indices of) smallest values.  Modelled by a full
stable argsort, a correct refinement of the partial-sort contract: the code
only relies on the first `k` entries being some minimal `k`-subset, with tie
order implementation-defined. -/
def argpartition (l : List α) (kth : ℕ) : List ℕ :=
  let _ := kth
  List.insertionSort (argRel l) (List.range l.length)

/-- Modelled from the spec: the spatial-index collaborator
`cKDTree.query(handle, vector, k, p) -> (distances, indices)` returns the `k`
nearest rows of the indexed data under the Minkowski distance of order `p`. -/
def kdQuery (env : Env α) (t : KDTree α) (x : Vec α) (k : ℕ) (p : α) :
    List α × List ℕ :=
  let distances := t.data.map (fun x_train => env.minkowski x x_train p)
  let indices := (argpartition distances (k - 1)).take k
  (indices.map (fun i => distances.getD i 0), indices)

/-- `KNNClassifier._k_neighbors_x`: brute path computes every distance with
`self._metric`, selects `k` indices with `argpartition(..., kth=k-1)[:k]` and
restricts the distances to them; kd-tree path delegates to the index query.
Any other algorithm value falls through both branches and hits the `return`
with `indices`/`distances` unbound (`UnboundLocalError`). -/
def _k_neighbors_x (env : Env α) (s : KNNState α) (x : Vec α) (k : ℕ) :
    Except KNNError (List ℕ × List α) :=
  if s.algorithm = "brute" then
    match s._metric with
    | none => .error .attributeError
    | some d =>
      let distances := s.X.map (fun x_train => d x x_train)
      let indices := (argpartition distances (k - 1)).take k
      .ok (indices, indices.map (fun i => distances.getD i 0))
  else if s.algorithm = "kd_tree" then
    match s.kd_tree_ with
    | none => .error .attributeError
    | some t =>
      let q := kdQuery env t x k s.p
      .ok (q.2, q.1)
  else .error .unboundLocal

/-- The effective `k` of `k_neighbors`: Python `k = k or self.k` replaces a
missing or zero (falsy) argument by the configured default. -/
def effectiveK (s : KNNState α) : Option ℕ → ℕ
  | some (m + 1) => m + 1
  | _ => s.k

/-- The per-query loop of `k_neighbors`, concatenating the per-query index
and distance blocks in query order. -/
def kLoop (env : Env α) (s : KNNState α) (k : ℕ) :
    List (Vec α) → Except KNNError (List ℕ × List α)
  | [] => .ok ([], [])
  | x :: rest => do
    let rx ← _k_neighbors_x env s x k
    let rr ← kLoop env s k rest
    .ok (rx.1 ++ rr.1, rx.2 ++ rr.2)

/-- `KNNClassifier.k_neighbors`: resolve the effective `k`, fail with the
`insufficient samples` `ValueError` when fewer training samples than `k`,
run `_check_metric`, then search per query vector and concatenate.  Returns
the mutated state, the printed warnings, and the outputs (the distance block
is returned only when `return_distances` is set). -/
def k_neighbors (env : Env α) (s : KNNState α) (X : List (Vec α)) (k? : Option ℕ)
    (return_distances : Bool) :
    Except KNNError (KNNState α × List String × List ℕ × List α) :=
  if s.X.length < effectiveK s k? then
    .error (.insufficientSamples s.X.length (effectiveK s k?))
  else
    (kLoop env (_check_metric env s).1 (effectiveK s k?) X).map
      (fun r => ((_check_metric env s).1, (_check_metric env s).2, r.1,
        if return_distances then r.2 else []))

/-- `collections.Counter` built from a list: an association list of
(value, multiplicity) pairs in first-occurrence order. -/
def counterOf (l : List ℤ) : List (ℤ × ℕ) :=
  l.foldl (fun acc a =>
    if acc.any (fun q => q.1 == a) then
      acc.map (fun q => if q.1 = a then (q.1, q.2 + 1) else q)
    else acc ++ [(a, 1)]) []

/-- Python `dict(zip(keys, vals))`: an association list in first-occurrence
key order where a duplicated key keeps only its **last** value (the dict
overwrites; nothing is summed). -/
def dictZip {W : Type} (ks : List ℤ) (vs : List W) : List (ℤ × W) :=
  (ks.zip vs).foldl (fun acc kv =>
    if acc.any (fun q => q.1 == kv.1) then
      acc.map (fun q => if q.1 = kv.1 then (q.1, kv.2) else q)
    else acc ++ [kv]) []

/-- `Counter.most_common(1)[0][0]`: the first key attaining the maximal
weight (a later key replaces the running best only when strictly larger);
`none` on an empty collection (Python raises `IndexError` there). -/
def most_common1 {W : Type} [LinearOrder W] : List (ℤ × W) → Option ℤ
  | [] => none
  | e :: rest =>
    some ((rest.foldl (fun best q => if best.2 < q.2 then q else best) e).1)

/-- `KNNClassifier._aggregate`: uniform voting tallies label counts with
`Counter`; distance voting builds `Counter(dict(zip(targets, 1/distances)))`
— because of the `dict`, a label occurring several times keeps only the
reciprocal distance of its last occurrence.  Any other `weights` value raises
the descriptive `ValueError`. -/
def _aggregate (s : KNNState α) (neighbors_targets : List ℤ) (distances : List α) :
    Except KNNError ℤ :=
  if s.weights = "uniform" then
    match most_common1 (counterOf neighbors_targets) with
    | some lab => .ok lab
    | none => .error .indexError
  else if s.weights = "distance" then
    match most_common1 (dictZip neighbors_targets (distances.map (fun d => 1 / d))) with
    | some lab => .ok lab
    | none => .error .indexError
  else .error (.valueError "weights" s.weights)

/-- `KNNClassifier._predict_x`: find the `self.k` nearest neighbors of `x`
and aggregate their labels. -/
def _predict_x (env : Env α) (s : KNNState α) (x : Vec α) : Except KNNError ℤ := do
  let r ← _k_neighbors_x env s x s.k
  _aggregate s (r.1.map (fun i => s.y.getD i 0)) r.2

/-- The per-query loop of `_predict`. -/
def pLoop (env : Env α) (s : KNNState α) : List (Vec α) → Except KNNError (List ℤ)
  | [] => .ok []
  | x :: rest => do
    let p0 ← _predict_x env s x
    let pr ← pLoop env s rest
    .ok (p0 :: pr)

/-- `KNNClassifier._predict`: fail when fewer training samples than `self.k`,
run `_check_metric`, then predict each query vector. -/
def _predict (env : Env α) (s : KNNState α) (X : List (Vec α)) :
    Except KNNError (KNNState α × List String × List ℤ) :=
  if s.X.length < s.k then .error (.insufficientSamples s.X.length s.k)
  else
    (pLoop env (_check_metric env s).1 X).map
      (fun ps => ((_check_metric env s).1, (_check_metric env s).2, ps))

/-- `KNNClassifier._fit`: run `_check_metric`; on the kd-tree path build a new
`cKDTree` only when the model was already fit in this process or no tree is
present; the brute path does nothing; any other algorithm value raises the
descriptive `ValueError`.  The returned `Bool` instruments whether a tree was
constructed in this call. -/
def _fit (env : Env α) (s : KNNState α) :
    Except KNNError (KNNState α × List String × Bool) :=
  if (_check_metric env s).1.algorithm = "kd_tree" then
    if (_check_metric env s).1.called_fit || (_check_metric env s).1.kd_tree_.isNone then
      .ok ({ (_check_metric env s).1 with
          kd_tree_ := some ⟨(_check_metric env s).1.X, (_check_metric env s).1.leaf_size⟩ },
        (_check_metric env s).2, true)
    else .ok ((_check_metric env s).1, (_check_metric env s).2, false)
  else if (_check_metric env s).1.algorithm = "brute" then
    .ok ((_check_metric env s).1, (_check_metric env s).2, false)
  else .error (.valueError "algorithm" (_check_metric env s).1.algorithm)

/-- Modelled from the spec: `BaseEstimator.fit` (`base.py` is not under
`src/`) attaches the training inputs, runs `_fit`, and afterwards marks the
estimator as fit in this process (the `_called_fit` flag), so that during the
first `_fit` after construction or reload the flag is still unset. -/
def fit (env : Env α) (s : KNNState α) (X : List (Vec α)) (y : List ℤ) :
    Except KNNError (KNNState α × List String × Bool) :=
  (_fit env { s with X := X, y := y }).map
    (fun r => ({ r.1 with called_fit := true }, r.2))

/-- The persisted scalar record (spec section 6): every constructor parameter
plus the `kd_tree_` attribute. -/
structure Params (α : Type) where
  k : ℕ
  p : α
  weights : String
  algorithm : String
  leaf_size : ℕ
  metric : Option (Vec α → Vec α → α)
  kernel : Option (KernelKind α)
  kernel_params : List (String × α)
  kd_tree_ : Option (KDTree α)

/-- An opaque pickled blob (the generic object-codec collaborator). -/
inductive Blob (α : Type) where
  | pickled (t : KDTree α)

/-- The serialized form of the record: same scalars, with the tree replaced
by its pickled blob when present. -/
structure SerParams (α : Type) where
  k : ℕ
  p : α
  weights : String
  algorithm : String
  leaf_size : ℕ
  metric : Option (Vec α → Vec α → α)
  kernel : Option (KernelKind α)
  kernel_params : List (String × α)
  kd_tree_ : Option (Blob α)

/-- `BaseEstimator.get_params` restricted to the persisted fields. -/
def get_params (s : KNNState α) : Params α :=
  ⟨s.k, s.p, s.weights, s.algorithm, s.leaf_size, s.metric, s.kernel,
    s.kernel_params, s.kd_tree_⟩

/-- `KNNClassifier._serialize`: pickle the tree when one is present (a `None`
tree is left as the explicit no-index marker). -/
def _serialize (ps : Params α) : SerParams α :=
  ⟨ps.k, ps.p, ps.weights, ps.algorithm, ps.leaf_size, ps.metric, ps.kernel,
    ps.kernel_params, ps.kd_tree_.map .pickled⟩

/-- `KNNClassifier._deserialize`: unpickle the blob back into a live tree. -/
def _deserialize (ps : SerParams α) : Params α :=
  ⟨ps.k, ps.p, ps.weights, ps.algorithm, ps.leaf_size, ps.metric, ps.kernel,
    ps.kernel_params, ps.kd_tree_.map (fun b => match b with | .pickled t => t)⟩

/-- `BaseEstimator.save`: serialize the parameter record. -/
def save (s : KNNState α) : SerParams α :=
  _serialize (get_params s)

/-- Modelled from the spec: `utils.read_write.load_model` (not under `src/`)
restores the persisted parameters into a fresh estimator with no training
data attached and not yet fit in this process. -/
def load_model (sp : SerParams α) : KNNState α :=
  let ps := _deserialize sp
  ⟨ps.k, ps.p, ps.weights, ps.algorithm, ps.leaf_size, ps.metric, ps.kernel,
    ps.kernel_params, ps.kd_tree_, [], [], false, none⟩

/-- Modelled from the spec: `BaseEstimator.set_params(algorithm=...)`, the
explicit way a caller restores the indexed algorithm after a downgrade. -/
def set_params_algorithm (s : KNNState α) (a : String) : KNNState α :=
  { s with algorithm := a }

/-- A concrete collaborator environment over `ℚ`, used for witnesses: the
linear kernel and the Minkowski distance of order 1 (the order argument is
ignored; only one concrete member of the family is needed). -/
def env0 : Env ℚ where
  get_kernel := fun _ _ x y => ((x.zip y).map (fun q => q.1 * q.2)).sum
  minkowski := fun x y _ => ((x.zip y).map (fun q => |q.1 - q.2|)).sum

/-- The reference training set. -/
def X0 : List (Vec ℚ) := [[0, 0], [0, 1], [1, 0], [1, 1]]

/-- The reference labels. -/
def y0 : List ℤ := [0, 1, 1, 0]

/-! ### Generic facts about the brute-force selection -/

theorem getD_map {β γ : Type} (f : β → γ) (l : List β) (i : ℕ) (dβ : β) (dγ : γ)
    (h : i < l.length) : (l.map f).getD i dγ = f (l.getD i dβ) := by
  rw [List.getD_eq_getElem l dβ h, List.getD_eq_getElem (l.map f) dγ (by simpa using h)]
  simp

theorem argpartition_perm (l : List α) (kth : ℕ) :
    List.Perm (argpartition l kth) (List.range l.length) :=
  List.perm_insertionSort _ _

theorem argpartition_sorted (l : List α) (kth : ℕ) :
    List.Sorted (argRel l) (argpartition l kth) :=
  List.sorted_insertionSort _ _

theorem map_getD_range (l : List α) :
    (List.range l.length).map (fun i => l.getD i 0) = l := by
  apply List.ext_getElem
  · simp
  · intro i h1 h2
    simp only [List.getElem_map, List.getElem_range]
    exact List.getD_eq_getElem l 0 h2

/-- The values selected by `argpartition`, read off in order, are exactly the
fully sorted list of all values. -/
theorem argpartition_map_getD (l : List α) (kth : ℕ) :
    (argpartition l kth).map (fun i => l.getD i 0) =
      List.insertionSort (fun a b => a ≤ b) l := by
  apply List.eq_of_perm_of_sorted (r := fun a b : α => a ≤ b)
  · exact (((argpartition_perm l kth).map _).trans (by rw [map_getD_range])).trans
      (List.perm_insertionSort _ _).symm
  · have hs := argpartition_sorted l kth
    exact (List.pairwise_map).mpr hs
  · exact List.sorted_insertionSort _ _

/-! ### Claim C1 -/

/-- C1: for every fitted model with the brute algorithm and any resolved
effective metric `d`, the neighbor search `_k_neighbors_x` returns exactly
`k` index/distance entries; the indices are distinct, in range, and form a
correct minimal `k`-subset of the metric values (every selected index has a
value no larger than every unselected one — the tie-robust reading of
"equals the sort-and-truncate `k`-index set"); each returned distance is the
effective metric between the query and the training row at the paired index;
and the returned distance list is exactly the full sort of all `n_samples`
metric values truncated to the `k` smallest. -/
theorem C1_brute_selection (env : Env α) (s : KNNState α) (d : Vec α → Vec α → α)
    (x : Vec α) (k : ℕ) (hB : s.algorithm = "brute") (hm : s._metric = some d)
    (hkn : k ≤ s.X.length) :
    ∃ idx dst,
      _k_neighbors_x env s x k = .ok (idx, dst) ∧
      idx.length = k ∧ dst.length = k ∧ idx.Nodup ∧
      (∀ i ∈ idx, i < s.X.length) ∧
      (∀ i ∈ idx, ∀ j, j < s.X.length → j ∉ idx →
        d x (s.X.getD i []) ≤ d x (s.X.getD j [])) ∧
      (∀ pos, pos < k → dst.getD pos 0 = d x (s.X.getD (idx.getD pos 0) [])) ∧
      dst = (List.insertionSort (fun a b => a ≤ b) (s.X.map (fun x_train => d x x_train))).take k := by
  have hn : (s.X.map (fun x_train => d x x_train)).length = s.X.length := by simp
  have hPlen : (argpartition (s.X.map (fun x_train => d x x_train)) (k - 1)).length
      = s.X.length := by
    rw [(argpartition_perm _ _).length_eq, List.length_range, hn]
  have hPnodup : (argpartition (s.X.map (fun x_train => d x x_train)) (k - 1)).Nodup :=
    (argpartition_perm _ _).nodup_iff.mpr (List.nodup_range _)
  have hmemP : ∀ i, i ∈ argpartition (s.X.map (fun x_train => d x x_train)) (k - 1) ↔
      i < s.X.length := by
    intro i
    rw [(argpartition_perm _ _).mem_iff, List.mem_range, hn]
  have hidxlen :
      ((argpartition (s.X.map (fun x_train => d x x_train)) (k - 1)).take k).length = k := by
    rw [List.length_take, hPlen, min_eq_left hkn]
  have hvals : ∀ j, j < s.X.length →
      (s.X.map (fun x_train => d x x_train)).getD j 0 = d x (s.X.getD j []) := by
    intro j hj
    exact getD_map _ _ _ [] 0 hj
  refine ⟨(argpartition (s.X.map (fun x_train => d x x_train)) (k - 1)).take k,
      ((argpartition (s.X.map (fun x_train => d x x_train)) (k - 1)).take k).map
        (fun i => (s.X.map (fun x_train => d x x_train)).getD i 0),
      ?_, hidxlen, ?_, ?_, ?_, ?_, ?_, ?_⟩
  · unfold _k_neighbors_x
    rw [if_pos hB, hm]
  · rw [List.length_map, hidxlen]
  · exact hPnodup.sublist (List.take_sublist _ _)
  · intro i hi
    exact (hmemP i).mp (List.mem_of_mem_take hi)
  · intro i hi j hj hnj
    have hjP : j ∈ argpartition (s.X.map (fun x_train => d x x_train)) (k - 1) :=
      (hmemP j).mpr hj
    have hsplit := List.take_append_drop k
      (argpartition (s.X.map (fun x_train => d x x_train)) (k - 1))
    have hjdrop : j ∈ (argpartition (s.X.map (fun x_train => d x x_train)) (k - 1)).drop k := by
      rcases List.mem_append.mp (by rw [hsplit]; exact hjP) with h | h
      · exact absurd h hnj
      · exact h
    have hsorted := argpartition_sorted (s.X.map (fun x_train => d x x_train)) (k - 1)
    rw [← hsplit] at hsorted
    have hcross := (List.pairwise_append.mp hsorted).2.2 i hi j hjdrop
    have := hcross
    unfold argRel at this
    rw [hvals i ((hmemP i).mp (List.mem_of_mem_take hi)), hvals j hj] at this
    exact this
  · intro pos hpos
    have h1 : pos < ((argpartition (s.X.map (fun x_train => d x x_train)) (k - 1)).take k).length := by
      rw [hidxlen]; exact hpos
    rw [getD_map _ _ _ 0 0 h1]
    exact hvals _ ((hmemP _).mp (List.mem_of_mem_take
      (by rw [List.getD_eq_getElem _ 0 h1]; exact List.getElem_mem h1)))
  · rw [List.map_take, argpartition_map_getD]

/-- A concrete resolved metric over `ℚ` (order-1 Minkowski), for witnesses. -/
def dManhattan : Vec ℚ → Vec ℚ → ℚ :=
  fun x y => ((x.zip y).map (fun q => |q.1 - q.2|)).sum

/-- A concrete fitted brute-force state over `ℚ` with a resolved metric. -/
def sBrute : KNNState ℚ :=
  ⟨3, 2, "uniform", "brute", 30, none, none, [], none, X0, y0, true, some dManhattan⟩

/-- Witness for C1: the selection contract evaluated on the reference data. -/
theorem C1_brute_selection_witness :
    sBrute.algorithm = "brute" ∧ sBrute._metric = some dManhattan ∧ 3 ≤ sBrute.X.length ∧
    (∃ idx dst,
      _k_neighbors_x env0 sBrute [0.9, 0.99] 3 = .ok (idx, dst) ∧
      idx.length = 3 ∧ dst.length = 3 ∧ idx.Nodup ∧
      (∀ i ∈ idx, i < sBrute.X.length) ∧
      (∀ i ∈ idx, ∀ j, j < sBrute.X.length → j ∉ idx →
        dManhattan [0.9, 0.99] (sBrute.X.getD i []) ≤ dManhattan [0.9, 0.99] (sBrute.X.getD j [])) ∧
      (∀ pos, pos < 3 → dst.getD pos 0 =
        dManhattan [0.9, 0.99] (sBrute.X.getD (idx.getD pos 0) [])) ∧
      dst = (List.insertionSort (fun a b => a ≤ b)
        (sBrute.X.map (fun x_train => dManhattan [0.9, 0.99] x_train))).take 3) :=
  ⟨rfl, rfl, by decide,
    C1_brute_selection env0 sBrute dManhattan [0.9, 0.99] 3 rfl rfl (by decide)⟩

/-! ### Claim C3 -/

/-- C3: metric resolution always stores exactly one effective pairwise
distance, with kernel priority: a truthy kernel (looked up by name when a
string, used directly when callable) induces `K(x,x) - 2 K(x,y) + K(y,y)`
even when `metric` is also set; otherwise a set `metric` is used directly;
otherwise the Minkowski distance of order `p`. -/
theorem C3_metric_resolution (env : Env α) (s : KNNState α) :
    (∀ n, s.kernel = some (.name n) → n ≠ "" →
      ((_check_metric env s).1)._metric =
        some (fun x y => env.get_kernel n s.kernel_params x x
          - 2 * env.get_kernel n s.kernel_params x y
          + env.get_kernel n s.kernel_params y y)) ∧
    (∀ f, s.kernel = some (.func f) →
      ((_check_metric env s).1)._metric =
        some (fun x y => f x x - 2 * f x y + f y y)) ∧
    (∀ m, kernelTruthy s.kernel = false → s.metric = some m →
      ((_check_metric env s).1)._metric = some m) ∧
    (kernelTruthy s.kernel = false → s.metric = none →
      ((_check_metric env s).1)._metric = some (fun x y => env.minkowski x y s.p)) := by
  refine ⟨?_, ?_, ?_, ?_⟩
  · intro n hk hn
    have hb : (n == "") = false := beq_eq_false_iff_ne.mpr hn
    by_cases hdg : (metricOrKernel s && s.algorithm == "kd_tree") = true <;>
      simp [_check_metric, hdg, hk, kernelTruthy, hb, hn]
  · intro f hk
    by_cases hdg : (metricOrKernel s && s.algorithm == "kd_tree") = true <;>
      simp [_check_metric, hdg, hk, kernelTruthy]
  · intro m hkf hm
    by_cases hdg : (metricOrKernel s && s.algorithm == "kd_tree") = true <;>
      simp [_check_metric, hdg, hkf, hm]
  · intro hkf hm
    by_cases hdg : (metricOrKernel s && s.algorithm == "kd_tree") = true <;>
      simp [_check_metric, hdg, hkf, hm]

/-- Witness for C3: resolution evaluated at concrete configurations. -/
theorem C3_metric_resolution_witness :
    ((_check_metric env0 { sBrute with kernel := some (.name "rbf"), metric := some dManhattan }).1)._metric =
      some (fun x y => env0.get_kernel "rbf" [] x x - 2 * env0.get_kernel "rbf" [] x y
        + env0.get_kernel "rbf" [] y y) ∧
    ((_check_metric env0 { sBrute with kernel := none, metric := some dManhattan }).1)._metric = some dManhattan ∧
    ((_check_metric env0 { sBrute with kernel := none, metric := none }).1)._metric =
      some (fun x y => env0.minkowski x y (2 : ℚ)) :=
  ⟨(C3_metric_resolution env0 _).1 "rbf" rfl (by decide),
    (C3_metric_resolution env0 _).2.2.1 dManhattan rfl rfl,
    (C3_metric_resolution env0 _).2.2.2 rfl rfl⟩

/-! ### Claim C4 -/

/-- When the downgrade condition holds, `_check_metric` mutates the algorithm
to brute, prints the warning, and otherwise behaves exactly as it does on the
already-downgraded state. -/
theorem _check_metric_downgrade (env : Env α) (s : KNNState α)
    (hmk : metricOrKernel s = true) (hkd : s.algorithm = "kd_tree") :
    _check_metric env s =
      ((_check_metric env (set_params_algorithm s "brute")).1, [downgradeWarning]) := by
  have h1 : (metricOrKernel s && s.algorithm == "kd_tree") = true := by
    rw [hkd, hmk]; rfl
  by_cases hker : kernelTruthy s.kernel = true
  · simp [_check_metric, set_params_algorithm, h1, hker]
  · by_cases hmet : s.metric.isSome = true <;>
      simp [_check_metric, set_params_algorithm, h1, hker, hmet]

/-- When the downgrade condition fails (no custom metric or kernel, or the
algorithm is not the indexed one), `_check_metric` prints no warning and
leaves the algorithm unchanged. -/
theorem _check_metric_no_downgrade (env : Env α) (s : KNNState α)
    (h1 : (metricOrKernel s && s.algorithm == "kd_tree") = false) :
    (_check_metric env s).2 = [] ∧ (_check_metric env s).1.algorithm = s.algorithm := by
  constructor
  · simp only [_check_metric, h1, Bool.false_eq_true, if_false]
    split
    · rfl
    · split <;> rfl
  · simp only [_check_metric, h1, Bool.false_eq_true, if_false]
    split
    · rfl
    · split <;> rfl

/-- A downgraded `_fit` run: it neither queries nor builds the index. -/
theorem _fit_downgrade (env : Env α) (s : KNNState α)
    (hmk : metricOrKernel s = true) (hkd : s.algorithm = "kd_tree") :
    _fit env s =
      .ok ((_check_metric env (set_params_algorithm s "brute")).1, [downgradeWarning], false) := by
  have hcm := _check_metric_downgrade env s hmk hkd
  have halg : (_check_metric env (set_params_algorithm s "brute")).1.algorithm = "brute" :=
    (_check_metric_no_downgrade env (set_params_algorithm s "brute")
      (by simp [set_params_algorithm])).2
  unfold _fit
  rw [hcm]
  simp only
  rw [if_neg (by rw [halg]; exact (by decide : ¬ ("brute" : String) = "kd_tree")),
    if_pos halg]

/-- The Python `k = k or self.k` resolution ignores the algorithm field. -/
theorem effectiveK_set_algorithm (s : KNNState α) (a : String) (k? : Option ℕ) :
    effectiveK (set_params_algorithm s a) k? = effectiveK s k? := by
  cases k? with
  | none => rfl
  | some v => cases v with
    | zero => rfl
    | succ m => rfl

/-- A downgraded `k_neighbors` run equals the brute-force run, warning
prepended. -/
theorem k_neighbors_downgrade (env : Env α) (s : KNNState α) (Xq : List (Vec α))
    (k? : Option ℕ) (rd : Bool)
    (hmk : metricOrKernel s = true) (hkd : s.algorithm = "kd_tree") :
    k_neighbors env s Xq k? rd =
      (k_neighbors env (set_params_algorithm s "brute") Xq k? rd).map
        (fun r => (r.1, downgradeWarning :: r.2.1, r.2.2)) := by
  have hcm := _check_metric_downgrade env s hmk hkd
  have hw := (_check_metric_no_downgrade env (set_params_algorithm s "brute")
    (by simp [set_params_algorithm])).1
  have he := effectiveK_set_algorithm s "brute" k?
  have hX : (set_params_algorithm s "brute").X = s.X := rfl
  unfold k_neighbors
  simp only [he, hcm, hw, hX]
  by_cases hlen : s.X.length < effectiveK s k?
  · rw [if_pos hlen, if_pos hlen]
    rfl
  · rw [if_neg hlen, if_neg hlen]
    cases hkl : kLoop env (_check_metric env (set_params_algorithm s "brute")).1
        (effectiveK s k?) Xq with
    | error e => simp [Except.map]
    | ok r => simp [Except.map]

/-- A downgraded `_predict` run equals the brute-force run, warning
prepended. -/
theorem _predict_downgrade (env : Env α) (s : KNNState α) (Xq : List (Vec α))
    (hmk : metricOrKernel s = true) (hkd : s.algorithm = "kd_tree") :
    _predict env s Xq =
      (_predict env (set_params_algorithm s "brute") Xq).map
        (fun r => (r.1, downgradeWarning :: r.2.1, r.2.2)) := by
  have hcm := _check_metric_downgrade env s hmk hkd
  have hw := (_check_metric_no_downgrade env (set_params_algorithm s "brute")
    (by simp [set_params_algorithm])).1
  have hX : (set_params_algorithm s "brute").X = s.X := rfl
  have hk : (set_params_algorithm s "brute").k = s.k := rfl
  unfold _predict
  simp only [hcm, hw, hX, hk]
  by_cases hlen : s.X.length < s.k
  · rw [if_pos hlen, if_pos hlen]
    rfl
  · rw [if_neg hlen, if_neg hlen]
    cases hkl : pLoop env (_check_metric env (set_params_algorithm s "brute")).1 Xq with
    | error e => simp [Except.map]
    | ok r => simp [Except.map]

/-! ### Claim C4 -/

/-- C4: whenever `kernel` or `metric` is set and the algorithm is the indexed
(`kd_tree`) strategy, the compatibility check — run at the head of every fit
and of every neighbor-search/predict call — forces the algorithm to brute and
emits the non-fatal downgrade warning; execution continues, producing exactly
the brute-path results: the indexed search path is never used (on fit, no
tree is even built). -/
theorem C4_forced_downgrade (env : Env α) (s : KNNState α) (X : List (Vec α)) (y : List ℤ)
    (Xq : List (Vec α)) (k? : Option ℕ) (rd : Bool)
    (hmk : metricOrKernel s = true) (hkd : s.algorithm = "kd_tree") :
    ((_check_metric env s).1.algorithm = "brute" ∧
      (_check_metric env s).2 = [downgradeWarning]) ∧
    _fit env s = .ok ((_check_metric env s).1, [downgradeWarning], false) ∧
    (fit env s X y).map (fun r => (r.1.algorithm, r.2.1, r.2.2)) =
      .ok ("brute", [downgradeWarning], false) ∧
    k_neighbors env s Xq k? rd =
      (k_neighbors env (set_params_algorithm s "brute") Xq k? rd).map
        (fun r => (r.1, downgradeWarning :: r.2.1, r.2.2)) ∧
    _predict env s Xq =
      (_predict env (set_params_algorithm s "brute") Xq).map
        (fun r => (r.1, downgradeWarning :: r.2.1, r.2.2)) := by
  have hcm := _check_metric_downgrade env s hmk hkd
  have halg : (_check_metric env (set_params_algorithm s "brute")).1.algorithm = "brute" :=
    (_check_metric_no_downgrade env (set_params_algorithm s "brute")
      (by simp [set_params_algorithm])).2
  refine ⟨⟨?_, ?_⟩, ?_, ?_, ?_, ?_⟩
  · rw [hcm]; rw [halg]
  · rw [hcm]
  · rw [_fit_downgrade env s hmk hkd, hcm]
  · have hmk2 : metricOrKernel ({ s with X := X, y := y } : KNNState α) = true := hmk
    have hkd2 : ({ s with X := X, y := y } : KNNState α).algorithm = "kd_tree" := hkd
    have h2 := _fit_downgrade env { s with X := X, y := y } hmk2 hkd2
    have halg2 : (_check_metric env
        (set_params_algorithm ({ s with X := X, y := y } : KNNState α) "brute")).1.algorithm
        = "brute" :=
      (_check_metric_no_downgrade env
        (set_params_algorithm ({ s with X := X, y := y } : KNNState α) "brute")
        (by simp [set_params_algorithm])).2
    unfold fit
    rw [h2]
    simp [Except.map, halg2]
  · exact k_neighbors_downgrade env s Xq k? rd hmk hkd
  · exact _predict_downgrade env s Xq hmk hkd

/-- A concrete configuration hitting the downgrade, for witnesses. -/
def sKd0 : KNNState ℚ :=
  ⟨3, 2, "uniform", "kd_tree", 30, none, some (.name "rbf"), [], none, X0, y0, false, none⟩

/-- Witness for C4: the downgrade evaluated on a concrete configuration. -/
theorem C4_forced_downgrade_witness :
    metricOrKernel sKd0 = true ∧ sKd0.algorithm = "kd_tree" ∧
    (((_check_metric env0 sKd0).1.algorithm = "brute" ∧
      (_check_metric env0 sKd0).2 = [downgradeWarning]) ∧
    _fit env0 sKd0 = .ok ((_check_metric env0 sKd0).1, [downgradeWarning], false) ∧
    (fit env0 sKd0 X0 y0).map (fun r => (r.1.algorithm, r.2.1, r.2.2)) =
      .ok ("brute", [downgradeWarning], false) ∧
    k_neighbors env0 sKd0 [[0.9, 0.99]] none true =
      (k_neighbors env0 (set_params_algorithm sKd0 "brute") [[0.9, 0.99]] none true).map
        (fun r => (r.1, downgradeWarning :: r.2.1, r.2.2)) ∧
    _predict env0 sKd0 [[0.9, 0.99]] =
      (_predict env0 (set_params_algorithm sKd0 "brute") [[0.9, 0.99]]).map
        (fun r => (r.1, downgradeWarning :: r.2.1, r.2.2))) :=
  ⟨rfl, rfl, C4_forced_downgrade env0 sKd0 X0 y0 [[0.9, 0.99]] none true rfl rfl⟩

/-! ### Claim C5 -/

/-- C5: whenever the number of training samples is smaller than the requested
`k` — the effective argument of a neighbor-search call, or the configured
default of a prediction call — that operation fails fatally with the
insufficient-samples error naming both numbers, before any per-vector work:
the error is returned for every query batch and no partial output exists. -/
theorem C5_insufficient_samples (env : Env α) (s : KNNState α) (X : List (Vec α))
    (k? : Option ℕ) (rd : Bool) :
    (s.X.length < effectiveK s k? →
      k_neighbors env s X k? rd =
        .error (.insufficientSamples s.X.length (effectiveK s k?))) ∧
    (s.X.length < s.k →
      _predict env s X = .error (.insufficientSamples s.X.length s.k)) := by
  constructor
  · intro hk
    unfold k_neighbors
    rw [if_pos hk]
  · intro hp
    unfold _predict
    rw [if_pos hp]

/-- A one-sample fitted state keeping the default `k = 5`, for witnesses. -/
def sTiny : KNNState ℚ :=
  ⟨5, 2, "uniform", "brute", 30, none, none, [], none, [[0]], [0], true, some dManhattan⟩

/-- A two-sample fitted state whose default `k = 1` is fine: only an explicit
larger `k` argument makes a search call undersized. -/
def sTiny2 : KNNState ℚ :=
  ⟨1, 2, "uniform", "brute", 30, none, none, [], none, [[0], [1]], [0, 1], true, some dManhattan⟩

/-- Witness for C5: a neighbor search whose explicit `k = 5` exceeds the two
training samples although the configured default `k = 1` does not, and a
prediction on a one-sample model whose default `k = 5` is undersized. -/
theorem C5_insufficient_samples_witness :
    sTiny2.X.length < effectiveK sTiny2 (some 5) ∧ ¬ sTiny2.X.length < sTiny2.k ∧
    sTiny.X.length < sTiny.k ∧
    k_neighbors env0 sTiny2 [[0]] (some 5) true =
      .error (.insufficientSamples sTiny2.X.length (effectiveK sTiny2 (some 5))) ∧
    _predict env0 sTiny [[0]] = .error (.insufficientSamples sTiny.X.length sTiny.k) :=
  ⟨by decide, by decide, by decide,
    (C5_insufficient_samples env0 sTiny2 [[0]] (some 5) true).1 (by decide),
    (C5_insufficient_samples env0 sTiny [[0]] none false).2 (by decide)⟩

/-- `_check_metric` only ever touches `algorithm` and `_metric`: every other
field of the state is preserved. -/
theorem _check_metric_preserves (env : Env α) (s : KNNState α) :
    (_check_metric env s).1.called_fit = s.called_fit ∧
    (_check_metric env s).1.kd_tree_ = s.kd_tree_ ∧
    (_check_metric env s).1.X = s.X ∧
    (_check_metric env s).1.y = s.y ∧
    (_check_metric env s).1.k = s.k ∧
    (_check_metric env s).1.leaf_size = s.leaf_size ∧
    (_check_metric env s).1.weights = s.weights ∧
    (_check_metric env s).1.kernel = s.kernel ∧
    (_check_metric env s).1.metric = s.metric ∧
    (_check_metric env s).1.kernel_params = s.kernel_params ∧
    (_check_metric env s).1.p = s.p := by
  by_cases hdg : (metricOrKernel s && s.algorithm == "kd_tree") = true <;>
    by_cases hker : kernelTruthy s.kernel = true <;>
    by_cases hmet : s.metric.isSome = true <;>
    simp [_check_metric, hdg, hker, hmet]

/-- A successful `k_neighbors` call returns the `_check_metric`-mutated
state and its warnings. -/
theorem k_neighbors_ok_state (env : Env α) (s : KNNState α) (Xq : List (Vec α))
    (k? : Option ℕ) (rd : Bool) (r : KNNState α × List String × List ℕ × List α)
    (h : k_neighbors env s Xq k? rd = .ok r) :
    r.1 = (_check_metric env s).1 ∧ r.2.1 = (_check_metric env s).2 := by
  unfold k_neighbors at h
  by_cases hlen : s.X.length < effectiveK s k?
  · rw [if_pos hlen] at h
    exact absurd h (by simp)
  · rw [if_neg hlen] at h
    cases hkl : kLoop env (_check_metric env s).1 (effectiveK s k?) Xq with
    | error e =>
      rw [hkl] at h
      exact absurd h (by simp [Except.map])
    | ok rr =>
      rw [hkl] at h
      simp only [Except.map, Except.ok.injEq] at h
      rw [← h]
      exact ⟨rfl, rfl⟩

/-- A successful `_predict` call returns the `_check_metric`-mutated state
and its warnings. -/
theorem _predict_ok_state (env : Env α) (s : KNNState α) (Xq : List (Vec α))
    (r : KNNState α × List String × List ℤ)
    (h : _predict env s Xq = .ok r) :
    r.1 = (_check_metric env s).1 ∧ r.2.1 = (_check_metric env s).2 := by
  unfold _predict at h
  by_cases hlen : s.X.length < s.k
  · rw [if_pos hlen] at h
    exact absurd h (by simp)
  · rw [if_neg hlen] at h
    cases hkl : pLoop env (_check_metric env s).1 Xq with
    | error e =>
      rw [hkl] at h
      exact absurd h (by simp [Except.map])
    | ok rr =>
      rw [hkl] at h
      simp only [Except.map, Except.ok.injEq] at h
      rw [← h]
      exact ⟨rfl, rfl⟩

/-- A successful `fit` keeps the algorithm chosen by `_check_metric`. -/
theorem fit_ok_algorithm (env : Env α) (s : KNNState α) (X : List (Vec α)) (y : List ℤ)
    (r : KNNState α × List String × Bool) (h : fit env s X y = .ok r) :
    r.1.algorithm = (_check_metric env { s with X := X, y := y }).1.algorithm := by
  unfold fit _fit at h
  by_cases h1 : (_check_metric env ({ s with X := X, y := y } : KNNState α)).1.algorithm = "kd_tree"
  · rw [if_pos h1] at h
    by_cases h2 : ((_check_metric env ({ s with X := X, y := y } : KNNState α)).1.called_fit
        || (_check_metric env ({ s with X := X, y := y } : KNNState α)).1.kd_tree_.isNone) = true
    · rw [if_pos h2] at h
      simp only [Except.map, Except.ok.injEq] at h
      rw [← h]
    · rw [if_neg h2] at h
      simp only [Except.map, Except.ok.injEq] at h
      rw [← h]
  · rw [if_neg h1] at h
    by_cases h2 : (_check_metric env ({ s with X := X, y := y } : KNNState α)).1.algorithm = "brute"
    · rw [if_pos h2] at h
      simp only [Except.map, Except.ok.injEq] at h
      rw [← h]
    · rw [if_neg h2] at h
      exact absurd h (by simp [Except.map])

/-! ### Claim C9 -/

/-- C9: the downgrade is sticky.  Any entry point run with a truthy kernel or
metric while the algorithm is the indexed value mutates the stored algorithm
to brute; once the stored algorithm is brute, every later fit, neighbor
search or predict call — under any kernel/metric configuration, including
both cleared back to `None` — leaves it brute; only an explicit `set_params`
restores the indexed value. -/
theorem C9_sticky_downgrade (env : Env α) (s : KNNState α) (X : List (Vec α)) (y : List ℤ)
    (Xq : List (Vec α)) (k? : Option ℕ) (rd : Bool) :
    (metricOrKernel s = true → s.algorithm = "kd_tree" →
      (_check_metric env s).1.algorithm = "brute") ∧
    (s.algorithm = "brute" →
      (_check_metric env s).1.algorithm = "brute" ∧
      (fit env s X y).map (fun r => r.1.algorithm) = .ok "brute" ∧
      (k_neighbors env s Xq k? rd).map (fun r => r.1.algorithm) =
        (k_neighbors env s Xq k? rd).map (fun _ => "brute") ∧
      (_predict env s Xq).map (fun r => r.1.algorithm) =
        (_predict env s Xq).map (fun _ => "brute")) ∧
    (set_params_algorithm s "kd_tree").algorithm = "kd_tree" := by
  refine ⟨?_, ?_, rfl⟩
  · intro hmk hkd
    rw [_check_metric_downgrade env s hmk hkd]
    have h := (_check_metric_no_downgrade env (set_params_algorithm s "brute")
      (by simp [set_params_algorithm])).2
    rw [h]
    rfl
  · intro hb
    have hbeq : (metricOrKernel s && s.algorithm == "kd_tree") = false := by
      rw [hb]; simp
    have halg : (_check_metric env s).1.algorithm = "brute" := by
      rw [(_check_metric_no_downgrade env s hbeq).2, hb]
    have hb2 : ({ s with X := X, y := y } : KNNState α).algorithm = "brute" := hb
    have hbeq2 : (metricOrKernel ({ s with X := X, y := y } : KNNState α)
        && ({ s with X := X, y := y } : KNNState α).algorithm == "kd_tree") = false := by
      rw [hb2]; simp
    have halg2 : (_check_metric env ({ s with X := X, y := y } : KNNState α)).1.algorithm
        = "brute" := by
      rw [(_check_metric_no_downgrade env { s with X := X, y := y } hbeq2).2, hb2]
    refine ⟨halg, ?_, ?_, ?_⟩
    · unfold fit _fit
      rw [if_neg (by rw [halg2]; exact (by decide : ¬ ("brute" : String) = "kd_tree")),
        if_pos halg2]
      simp [Except.map, halg2]
    · cases hkn : k_neighbors env s Xq k? rd with
      | error e => rfl
      | ok r =>
        simp only [Except.map]
        rw [(k_neighbors_ok_state env s Xq k? rd r hkn).1, halg]
    · cases hpr : _predict env s Xq with
      | error e => rfl
      | ok r =>
        simp only [Except.map]
        rw [(_predict_ok_state env s Xq r hpr).1, halg]

/-- Witness for C9: the downgrade and its stickiness on concrete states. -/
theorem C9_sticky_downgrade_witness :
    (_check_metric env0 sKd0).1.algorithm = "brute" ∧
    ((_check_metric env0 sBrute).1.algorithm = "brute" ∧
      (fit env0 sBrute X0 y0).map (fun r => r.1.algorithm) = .ok "brute" ∧
      (k_neighbors env0 sBrute [[0, 0]] none false).map (fun r => r.1.algorithm) =
        (k_neighbors env0 sBrute [[0, 0]] none false).map (fun _ => "brute") ∧
      (_predict env0 sBrute [[0, 0]]).map (fun r => r.1.algorithm) =
        (_predict env0 sBrute [[0, 0]]).map (fun _ => "brute")) ∧
    (set_params_algorithm sBrute "kd_tree").algorithm = "kd_tree" :=
  ⟨(C9_sticky_downgrade env0 sKd0 X0 y0 [[0, 0]] none false).1 rfl rfl,
    (C9_sticky_downgrade env0 sBrute X0 y0 [[0, 0]] none false).2.1 rfl,
    (C9_sticky_downgrade env0 sBrute X0 y0 [[0, 0]] none false).2.2⟩

/-! ### Claim C10 -/

/-- C10 counterexample: on a fitted one-sample model keeping the default
`k = 5`, the call `k_neighbors(X, 0)` does fail (with the insufficient-samples
error), refuting the claim that a `k = 0` call never fails on a fitted
model. -/
theorem C10_counterexample :
    k_neighbors env0 sTiny [[0]] (some 0) false = .error (.insufficientSamples 1 5) := rfl

/-- C10 (amended): a falsy `k` argument (`0` or `None`) is silently replaced
by the configured default, so the call behaves identically to
`k_neighbors(X, self.k)` in every respect — including failing exactly when
that default call fails (`self.k > n_samples`). -/
theorem C10_falsy_k_default (env : Env α) (s : KNNState α) (X : List (Vec α)) (rd : Bool) :
    k_neighbors env s X (some 0) rd = k_neighbors env s X (some s.k) rd ∧
    k_neighbors env s X none rd = k_neighbors env s X (some s.k) rd := by
  have h : effectiveK s (some s.k) = s.k := by
    cases hk : s.k with
    | zero => exact hk
    | succ m => rfl
  constructor
  · unfold k_neighbors
    rw [h]
    rfl
  · unfold k_neighbors
    rw [h]
    rfl

/-! ### Claim C2 -/

/-- Follows the specification text for distance-weighted voting (spec section
4.3): every neighbor contributes the reciprocal of its own distance to its
label's total, so a label shared by several neighbors accumulates the sum of
their reciprocal distances. -/
def specDistanceTotals (targets : List ℤ) (distances : List α) : List (ℤ × α) :=
  (targets.zip distances).foldl (fun acc kv =>
    if acc.any (fun q => q.1 == kv.1) then
      acc.map (fun q => if q.1 = kv.1 then (q.1, q.2 + 1 / kv.2) else q)
    else acc ++ [(kv.1, 1 / kv.2)]) []

/-- The spec-mandated distance-weighted aggregation: the label with the
highest summed reciprocal-distance total (same first-wins tie-break). -/
def aggregateSpecDistance (targets : List ℤ) (distances : List α) : Option ℤ :=
  most_common1 (specDistanceTotals targets distances)

/-- C2 (code bug): under `weights = 'distance'` the code aggregates with
`Counter(dict(zip(targets, 1/distances)))`, so a label occurring several
times keeps only the reciprocal distance of its last occurrence instead of
the spec-mandated sum.  On neighbor labels `[0, 1, 1]` with distances
`[2, 3, 3]` the code elects label `0` (surviving weights `0 ↦ 1/2` and
`1 ↦ 1/3`, and `1/2 > 1/3`) while the spec's summed weights elect label `1`
(`1/3 + 1/3 = 2/3 > 1/2`). -/
theorem C2_distance_weights_bug :
    _aggregate ({ sBrute with weights := "distance" } : KNNState ℚ) [0, 1, 1] [2, 3, 3] =
      .ok 0 ∧
    aggregateSpecDistance (α := ℚ) [0, 1, 1] [2, 3, 3] = some 1 := by
  constructor
  · norm_num [_aggregate, dictZip, most_common1, sBrute]
    intro h
    exact absurd h (by decide)
  · norm_num [aggregateSpecDistance, specDistanceTotals, most_common1]

/-! ### Claim C8 -/

/-- A fitted one-sample state whose algorithm field holds an unsupported
value. -/
def sBall : KNNState ℚ :=
  ⟨1, 2, "uniform", "ball_tree", 30, none, none, [], none, [[0]], [0], true, none⟩

/-- C8 counterexample: with `algorithm = 'ball_tree'` the neighbor search
aborts through the unbound-local failure of `_k_neighbors_x`, an error that
names neither the offending field nor its value — refuting the claim that
every fit **or neighbor-search** operation fails with a descriptive message
identifying the field and value. -/
theorem C8_counterexample :
    k_neighbors env0 sBall [[0]] none false = .error .unboundLocal ∧
    KNNError.unboundLocal ≠ KNNError.valueError "algorithm" "ball_tree" :=
  ⟨rfl, by decide⟩

/-- C8 (amended): with an algorithm value outside both supported values, fit
aborts with the descriptive `ValueError` naming the `algorithm` field and its
value, while a neighbor-search or prediction call over a nonempty batch
aborts fatally too — but through a non-descriptive unbound-local error. -/
theorem C8_invalid_algorithm (env : Env α) (s : KNNState α) (x : Vec α) (Xq : List (Vec α))
    (k? : Option ℕ) (rd : Bool)
    (h1 : s.algorithm ≠ "brute") (h2 : s.algorithm ≠ "kd_tree")
    (hlen : ¬ s.X.length < effectiveK s k?) (hlenp : ¬ s.X.length < s.k) :
    _fit env s = .error (.valueError "algorithm" s.algorithm) ∧
    k_neighbors env s (x :: Xq) k? rd = .error .unboundLocal ∧
    _predict env s (x :: Xq) = .error .unboundLocal := by
  have hbeq : (metricOrKernel s && s.algorithm == "kd_tree") = false := by
    rw [beq_eq_false_iff_ne.mpr h2, Bool.and_false]
  have hno := _check_metric_no_downgrade env s hbeq
  have halg1 : ¬ (_check_metric env s).1.algorithm = "kd_tree" := by
    rw [hno.2]; exact h2
  have halg2 : ¬ (_check_metric env s).1.algorithm = "brute" := by
    rw [hno.2]; exact h1
  have hx : ∀ k, _k_neighbors_x env (_check_metric env s).1 x k = .error .unboundLocal := by
    intro k
    unfold _k_neighbors_x
    rw [if_neg halg2, if_neg halg1]
  refine ⟨?_, ?_, ?_⟩
  · unfold _fit
    rw [if_neg halg1, if_neg halg2, hno.2]
  · unfold k_neighbors
    rw [if_neg hlen]
    unfold kLoop
    rw [hx]
    rfl
  · unfold _predict
    rw [if_neg hlenp]
    unfold pLoop _predict_x
    rw [hx]
    rfl

/-- Witness for C8 (amended): the two failure shapes on a concrete state. -/
theorem C8_invalid_algorithm_witness :
    sBall.algorithm ≠ "brute" ∧ sBall.algorithm ≠ "kd_tree" ∧
    (_fit env0 sBall = .error (.valueError "algorithm" sBall.algorithm) ∧
      k_neighbors env0 sBall ([0] :: []) none false = .error .unboundLocal ∧
      _predict env0 sBall ([0] :: []) = .error .unboundLocal) :=
  ⟨by decide, by decide,
    C8_invalid_algorithm env0 sBall [0] [] none false (by decide) (by decide)
      (by decide) (by decide)⟩

/-! ### Claim C6 -/

/-- Deserializing a serialized parameter record restores it exactly (the
pickled index blob decodes back to the same live tree handle). -/
theorem _deserialize_serialize (ps : Params α) : _deserialize (_serialize ps) = ps := by
  cases ps with
  | mk k p w a l m ker kp kd => cases kd <;> rfl

/-- A fresh (never fit) indexed configuration over `ℚ`. -/
def sKD1 : KNNState ℚ :=
  ⟨3, 2, "uniform", "kd_tree", 1, none, none, [], none, [], [], false, none⟩

/-- C6 counterexample: fit a fresh indexed model (the model is then marked as
fit in this process), then fit again: although the model **has** previously
been fit in this process, the second fit rebuilds the tree (instrumentation
bit `true`) — refuting "the index is rebuilt from scratch only when the model
has not previously been fit in this process". -/
theorem C6_counterexample :
    (fit env0 sKD1 X0 y0).map (fun r => r.1.called_fit) = .ok true ∧
    ((fit env0 sKD1 X0 y0).bind (fun r => fit env0 r.1 X0 y0)).map (fun r => r.2.2) =
      .ok true :=
  ⟨rfl, rfl⟩

/-- C6 (amended): serialization round-trips the persisted record exactly;
loading a persisted fitted indexed model and then calling fit reuses the
loaded index (no rebuild: instrumentation bit `false`, same tree handle); and
on the reference scenario the save/load/refit model predicts identically to
the original.  The reuse happens only in that situation: a fit on a model
already fit in this process rebuilds the index (see the counterexample). -/
theorem C6_persistence_roundtrip (env : Env α) (s : KNNState α) (X : List (Vec α))
    (y : List ℤ) (t : KDTree α)
    (hkd : s.algorithm = "kd_tree") (ht : s.kd_tree_ = some t)
    (hmk : metricOrKernel s = false) :
    _deserialize (_serialize (get_params s)) = get_params s ∧
    (fit env (load_model (save s)) X y).map (fun r => (r.2.2, r.1.kd_tree_)) =
      .ok (false, some t) ∧
    ((fit env0 sKD1 X0 y0).bind (fun r =>
        (fit env0 (load_model (save r.1)) X0 y0).bind (fun r2 =>
          _predict env0 r2.1 [[0.9, 0.99]]))).map (fun r => r.2.2) =
      ((fit env0 sKD1 X0 y0).bind (fun r => _predict env0 r.1 [[0.9, 0.99]])).map
        (fun r => r.2.2) := by
  refine ⟨_deserialize_serialize _, ?_, rfl⟩
  have hmk2 : metricOrKernel ({ load_model (save s) with X := X, y := y } : KNNState α)
      = false := hmk
  have hcond : (metricOrKernel ({ load_model (save s) with X := X, y := y } : KNNState α)
      && ({ load_model (save s) with X := X, y := y } : KNNState α).algorithm == "kd_tree")
      = false := by
    rw [hmk2]
    rfl
  have hno := _check_metric_no_downgrade env { load_model (save s) with X := X, y := y } hcond
  have hpres := _check_metric_preserves env
    ({ load_model (save s) with X := X, y := y } : KNNState α)
  have halg : (_check_metric env
      ({ load_model (save s) with X := X, y := y } : KNNState α)).1.algorithm = "kd_tree" := by
    rw [hno.2]; exact hkd
  have hkdt0 : (load_model (save s)).kd_tree_ = some t := by
    show (((get_params s).kd_tree_.map Blob.pickled).map
      (fun b => match b with | .pickled u => u)) = some t
    rw [show (get_params s).kd_tree_ = s.kd_tree_ from rfl, ht]
    rfl
  have hkdt : ({ load_model (save s) with X := X, y := y } : KNNState α).kd_tree_ = some t :=
    hkdt0
  have hcf : ({ load_model (save s) with X := X, y := y } : KNNState α).called_fit = false := rfl
  have hcond2 : ((_check_metric env
      ({ load_model (save s) with X := X, y := y } : KNNState α)).1.called_fit
      || (_check_metric env
      ({ load_model (save s) with X := X, y := y } : KNNState α)).1.kd_tree_.isNone) = false := by
    rw [hpres.1, hpres.2.1, hcf, hkdt]
    rfl
  unfold fit _fit
  rw [if_pos halg, if_neg (by rw [hcond2]; exact Bool.false_ne_true)]
  simp only [Except.map, Except.ok.injEq, Prod.mk.injEq]
  refine ⟨trivial, ?_⟩
  show (_check_metric env
    ({ load_model (save s) with X := X, y := y } : KNNState α)).1.kd_tree_ = some t
  rw [hpres.2.1]
  exact hkdt

/-- A persisted-then-restored fitted indexed model over the reference data. -/
def sKDfitted : KNNState ℚ :=
  ⟨3, 2, "uniform", "kd_tree", 1, none, none, [], some ⟨X0, 1⟩, X0, y0, true, none⟩

/-- Witness for C6 (amended): the round trip evaluated on the reference
scenario. -/
theorem C6_persistence_roundtrip_witness :
    sKDfitted.algorithm = "kd_tree" ∧ sKDfitted.kd_tree_ = some ⟨X0, 1⟩ ∧
    metricOrKernel sKDfitted = false ∧
    (_deserialize (_serialize (get_params sKDfitted)) = get_params sKDfitted ∧
    (fit env0 (load_model (save sKDfitted)) X0 y0).map (fun r => (r.2.2, r.1.kd_tree_)) =
      .ok (false, some ⟨X0, 1⟩) ∧
    ((fit env0 sKD1 X0 y0).bind (fun r =>
        (fit env0 (load_model (save r.1)) X0 y0).bind (fun r2 =>
          _predict env0 r2.1 [[0.9, 0.99]]))).map (fun r => r.2.2) =
      ((fit env0 sKD1 X0 y0).bind (fun r => _predict env0 r.1 [[0.9, 0.99]])).map
        (fun r => r.2.2)) :=
  ⟨rfl, rfl, rfl, C6_persistence_roundtrip env0 sKDfitted X0 y0 ⟨X0, 1⟩ rfl rfl rfl⟩

/-! ### Claim C7 -/

/-- C7: the reference scenario.  Training set `[[0,0],[0,1],[1,0],[1,1]]`
with labels `[0,1,1,0]`, query `[0.9, 0.99]`, `k = 3`, brute algorithm, and
the genuine order-2 Minkowski (Euclidean) collaborator over `ℝ`: the
neighbor search returns the index set `{1, 2, 3}` (concretely, in selection
order `[3, 1, 2]`) with the paired exact distances `√0.0101`, `√0.8101`,
`√0.9901`; prediction returns label `1` under uniform weights and label `0`
under distance weights; and each exact distance agrees with the quoted
decimal constant (`0.10049876`, `0.90005555`, `0.99503769` respectively) to
within `10⁻⁸`, i.e. the quoted values are their correct 8-decimal
roundings. -/
theorem C7_reference_scenario :
    (k_neighbors
        (⟨fun _ _ _ _ => 0, fun x y _ => Real.sqrt (((x.zip y).map (fun q => (q.1 - q.2) ^ 2)).sum)⟩ : Env ℝ)
        (⟨3, 2, "uniform", "brute", 30, none, none, [], none,
          [[0, 0], [0, 1], [1, 0], [1, 1]], [0, 1, 1, 0], true, none⟩ : KNNState ℝ)
        [[0.9, 0.99]] none true).map (fun r => r.2.2) =
      .ok ([3, 1, 2], [Real.sqrt 0.0101, Real.sqrt 0.8101, Real.sqrt 0.9901]) ∧
    ([3, 1, 2] : List ℕ).toFinset = ({1, 2, 3} : Finset ℕ) ∧
    (_predict
        (⟨fun _ _ _ _ => 0, fun x y _ => Real.sqrt (((x.zip y).map (fun q => (q.1 - q.2) ^ 2)).sum)⟩ : Env ℝ)
        (⟨3, 2, "uniform", "brute", 30, none, none, [], none,
          [[0, 0], [0, 1], [1, 0], [1, 1]], [0, 1, 1, 0], true, none⟩ : KNNState ℝ)
        [[0.9, 0.99]]).map (fun r => r.2.2) = .ok [1] ∧
    (_predict
        (⟨fun _ _ _ _ => 0, fun x y _ => Real.sqrt (((x.zip y).map (fun q => (q.1 - q.2) ^ 2)).sum)⟩ : Env ℝ)
        (⟨3, 2, "distance", "brute", 30, none, none, [], none,
          [[0, 0], [0, 1], [1, 0], [1, 1]], [0, 1, 1, 0], true, none⟩ : KNNState ℝ)
        [[0.9, 0.99]]).map (fun r => r.2.2) = .ok [0] ∧
    |Real.sqrt 0.8101 - 0.90005555| < 1e-8 ∧
    |Real.sqrt 0.9901 - 0.99503769| < 1e-8 ∧
    |Real.sqrt 0.0101 - 0.10049876| < 1e-8 := by
  have hD : ([[0, 0], [0, 1], [1, 0], [1, 1]] : List (Vec ℝ)).map
      (fun xt => Real.sqrt (((([0.9, 0.99] : Vec ℝ).zip xt).map (fun q => (q.1 - q.2) ^ 2)).sum)) =
      [Real.sqrt 1.7901, Real.sqrt 0.8101, Real.sqrt 0.9901, Real.sqrt 0.0101] := by
    norm_num [List.zip]
  have s01_08 : Real.sqrt 0.0101 < Real.sqrt 0.8101 :=
    Real.sqrt_lt_sqrt (by norm_num) (by norm_num)
  have s01_09 : Real.sqrt 0.0101 < Real.sqrt 0.9901 :=
    Real.sqrt_lt_sqrt (by norm_num) (by norm_num)
  have s01_17 : Real.sqrt 0.0101 < Real.sqrt 1.7901 :=
    Real.sqrt_lt_sqrt (by norm_num) (by norm_num)
  have s08_09 : Real.sqrt 0.8101 ≤ Real.sqrt 0.9901 := Real.sqrt_le_sqrt (by norm_num)
  have s08_17 : Real.sqrt 0.8101 < Real.sqrt 1.7901 :=
    Real.sqrt_lt_sqrt (by norm_num) (by norm_num)
  have s09_17 : Real.sqrt 0.9901 < Real.sqrt 1.7901 :=
    Real.sqrt_lt_sqrt (by norm_num) (by norm_num)
  have c23 : argRel ([Real.sqrt 1.7901, Real.sqrt 0.8101, Real.sqrt 0.9901, Real.sqrt 0.0101] : List ℝ) 2 3 = False :=
    eq_false (show ¬ (Real.sqrt 0.9901 ≤ Real.sqrt 0.0101) from not_le.mpr s01_09)
  have c13 : argRel ([Real.sqrt 1.7901, Real.sqrt 0.8101, Real.sqrt 0.9901, Real.sqrt 0.0101] : List ℝ) 1 3 = False :=
    eq_false (show ¬ (Real.sqrt 0.8101 ≤ Real.sqrt 0.0101) from not_le.mpr s01_08)
  have c12 : argRel ([Real.sqrt 1.7901, Real.sqrt 0.8101, Real.sqrt 0.9901, Real.sqrt 0.0101] : List ℝ) 1 2 = True :=
    eq_true (show Real.sqrt 0.8101 ≤ Real.sqrt 0.9901 from s08_09)
  have c03 : argRel ([Real.sqrt 1.7901, Real.sqrt 0.8101, Real.sqrt 0.9901, Real.sqrt 0.0101] : List ℝ) 0 3 = False :=
    eq_false (show ¬ (Real.sqrt 1.7901 ≤ Real.sqrt 0.0101) from not_le.mpr s01_17)
  have c01 : argRel ([Real.sqrt 1.7901, Real.sqrt 0.8101, Real.sqrt 0.9901, Real.sqrt 0.0101] : List ℝ) 0 1 = False :=
    eq_false (show ¬ (Real.sqrt 1.7901 ≤ Real.sqrt 0.8101) from not_le.mpr s08_17)
  have c02 : argRel ([Real.sqrt 1.7901, Real.sqrt 0.8101, Real.sqrt 0.9901, Real.sqrt 0.0101] : List ℝ) 0 2 = False :=
    eq_false (show ¬ (Real.sqrt 1.7901 ≤ Real.sqrt 0.9901) from not_le.mpr s09_17)
  have hrange : List.range 4 = [0, 1, 2, 3] := by decide
  have hsort : argpartition
      ([Real.sqrt 1.7901, Real.sqrt 0.8101, Real.sqrt 0.9901, Real.sqrt 0.0101] : List ℝ) 2 =
      [3, 1, 2, 0] := by
    simp only [argpartition]
    rw [show ([Real.sqrt 1.7901, Real.sqrt 0.8101, Real.sqrt 0.9901, Real.sqrt 0.0101] : List ℝ).length = 4 from rfl, hrange]
    simp only [List.insertionSort, List.orderedInsert, c23, c13, c12, c03, c01, c02,
      if_true, if_false]
  have hkxU :
      _k_neighbors_x
        (⟨fun _ _ _ _ => 0, fun x y _ => Real.sqrt (((x.zip y).map (fun q => (q.1 - q.2) ^ 2)).sum)⟩ : Env ℝ)
        (⟨3, 2, "uniform", "brute", 30, none, none, [], none,
          [[0, 0], [0, 1], [1, 0], [1, 1]], [0, 1, 1, 0], true,
          some (fun x y => Real.sqrt (((x.zip y).map (fun q => (q.1 - q.2) ^ 2)).sum))⟩ : KNNState ℝ)
        [0.9, 0.99] 3 =
      .ok ([3, 1, 2], [Real.sqrt 0.0101, Real.sqrt 0.8101, Real.sqrt 0.9901]) := by
    simp [_k_neighbors_x, hD, hsort]
  have hkxD :
      _k_neighbors_x
        (⟨fun _ _ _ _ => 0, fun x y _ => Real.sqrt (((x.zip y).map (fun q => (q.1 - q.2) ^ 2)).sum)⟩ : Env ℝ)
        (⟨3, 2, "distance", "brute", 30, none, none, [], none,
          [[0, 0], [0, 1], [1, 0], [1, 1]], [0, 1, 1, 0], true,
          some (fun x y => Real.sqrt (((x.zip y).map (fun q => (q.1 - q.2) ^ 2)).sum))⟩ : KNNState ℝ)
        [0.9, 0.99] 3 =
      .ok ([3, 1, 2], [Real.sqrt 0.0101, Real.sqrt 0.8101, Real.sqrt 0.9901]) := by
    simp [_k_neighbors_x, hD, hsort]
  have hcmU :
      _check_metric
        (⟨fun _ _ _ _ => 0, fun x y _ => Real.sqrt (((x.zip y).map (fun q => (q.1 - q.2) ^ 2)).sum)⟩ : Env ℝ)
        (⟨3, 2, "uniform", "brute", 30, none, none, [], none,
          [[0, 0], [0, 1], [1, 0], [1, 1]], [0, 1, 1, 0], true, none⟩ : KNNState ℝ) =
      ((⟨3, 2, "uniform", "brute", 30, none, none, [], none,
          [[0, 0], [0, 1], [1, 0], [1, 1]], [0, 1, 1, 0], true,
          some (fun x y => Real.sqrt (((x.zip y).map (fun q => (q.1 - q.2) ^ 2)).sum))⟩ : KNNState ℝ), []) := rfl
  have hcmD :
      _check_metric
        (⟨fun _ _ _ _ => 0, fun x y _ => Real.sqrt (((x.zip y).map (fun q => (q.1 - q.2) ^ 2)).sum)⟩ : Env ℝ)
        (⟨3, 2, "distance", "brute", 30, none, none, [], none,
          [[0, 0], [0, 1], [1, 0], [1, 1]], [0, 1, 1, 0], true, none⟩ : KNNState ℝ) =
      ((⟨3, 2, "distance", "brute", 30, none, none, [], none,
          [[0, 0], [0, 1], [1, 0], [1, 1]], [0, 1, 1, 0], true,
          some (fun x y => Real.sqrt (((x.zip y).map (fun q => (q.1 - q.2) ^ 2)).sum))⟩ : KNNState ℝ), []) := rfl
  have hpos01 : (0 : ℝ) < Real.sqrt 0.0101 := Real.sqrt_pos.mpr (by norm_num)
  have cD : ((Real.sqrt 0.0101)⁻¹ < (Real.sqrt 0.9901)⁻¹) = False :=
    eq_false (not_lt.mpr (inv_anti₀ hpos01 (le_of_lt s01_09)))
  refine ⟨?_, by decide, ?_, ?_, ?_, ?_, ?_⟩
  · simp [k_neighbors, kLoop, hcmU, hkxU, effectiveK, Bind.bind, Except.bind, Except.map]
  · simp [_predict, pLoop, _predict_x, hcmU, hkxU, _aggregate, counterOf, most_common1,
      Bind.bind, Except.bind, Except.map]
  · simp [_predict, pLoop, _predict_x, hcmD, hkxD, _aggregate, dictZip, most_common1, cD,
      Bind.bind, Except.bind, Except.map]
  · rw [abs_lt]
    constructor
    · nlinarith [(Real.lt_sqrt (by norm_num : (0:ℝ) ≤ 0.90005554)).mpr
        (by norm_num : ((0.90005554 : ℝ)) ^ 2 < 0.8101)]
    · nlinarith [(Real.sqrt_lt' (by norm_num : (0:ℝ) < 0.90005556)).mpr
        (by norm_num : ((0.8101 : ℝ)) < 0.90005556 ^ 2)]
  · rw [abs_lt]
    constructor
    · nlinarith [(Real.lt_sqrt (by norm_num : (0:ℝ) ≤ 0.99503768)).mpr
        (by norm_num : ((0.99503768 : ℝ)) ^ 2 < 0.9901)]
    · nlinarith [(Real.sqrt_lt' (by norm_num : (0:ℝ) < 0.99503770)).mpr
        (by norm_num : ((0.9901 : ℝ)) < 0.99503770 ^ 2)]
  · rw [abs_lt]
    constructor
    · nlinarith [(Real.lt_sqrt (by norm_num : (0:ℝ) ≤ 0.10049875)).mpr
        (by norm_num : ((0.10049875 : ℝ)) ^ 2 < 0.0101)]
    · nlinarith [(Real.sqrt_lt' (by norm_num : (0:ℝ) < 0.10049877)).mpr
        (by norm_num : ((0.0101 : ℝ)) < 0.10049877 ^ 2)]

end MlMnist
